/-
Verification of the tennisbot decision engine, automation cycle and ledgers.

Shallow embedding of the Python sources under src/app/:
  * models.py          — enums and data records
  * engine.py          — pricing engine (calculate_factor, analyze_match, analyze_all)
  * matchstat_client.py — confirmation oracle (get_player_win_probability, confirms_signal)
  * kalshi_orders.py   — order execution (place_limit_order)
  * automation.py      — decision loop (already_ordered, record_order, run_automation_cycle)
  * bet_tracker.py     — outcome ledger (_calculate_outcome, update_outcome)

Python floats are modelled as rationals (ℚ); Python ints as Int.  `round(x, d)`
is modelled with round-half-to-even, matching Python's tie rule; every value
the theorems below evaluate it on is exact at the given precision, so the tie
rule never influences a result.
-/

import Mathlib

namespace Tennisbot

/-! ## models.py -/

inductive TournamentLevel
  | ATP | WTA | CHALLENGER | GRAND_SLAM
  deriving DecidableEq, Repr

inductive Surface
  | HARD | CLAY | GRASS
  deriving DecidableEq, Repr

inductive Signal
  | BUY | WAIT | SKIP
  deriving DecidableEq, Repr

structure PlayerInfo where
  name : String
  ranking : Option Int := none
  deriving DecidableEq, Repr

/-- `MatchData` from models.py: raw match data combined from Kalshi + tennis stats. -/
structure MatchData where
  playerFav : PlayerInfo
  playerDog : PlayerInfo
  favProbability : ℚ        -- from Kalshi market price (0.0-1.0)
  kalshiPrice : ℚ           -- current YES price on Kalshi (cents)
  tournamentName : String
  tournamentLevel : TournamentLevel
  surface : Surface
  volume : ℚ                 -- market volume in dollars
  kalshiTicker : Option String := none
  kalshiEventTicker : Option String := none
  deriving DecidableEq, Repr

/-- `AnalysisResult` from models.py: output from the decision engine. -/
structure AnalysisResult where
  mtch : MatchData
  signal : Signal
  targetPrice : Option ℚ
  factor : Option ℚ
  rankingGap : Option Int
  skipReason : Option String := none
  edge : Option ℚ := none
  deriving DecidableEq, Repr

/-! ## Python rounding

`round(x)` on a Python number rounds half to even; `round(x, d)` rounds to
`d` decimal digits with the same tie rule. -/

def pyRound (q : ℚ) : Int :=
  let f := ⌊q⌋
  let r := q - f
  if r < 1/2 then f
  else if 1/2 < r then f + 1
  else if f % 2 = 0 then f else f + 1

def roundTo (d : ℕ) (q : ℚ) : ℚ :=
  (pyRound (q * 10 ^ d) : ℚ) / 10 ^ d

/-! ## engine.py -/

def BASE_FACTOR : ℚ := 70/100

def TOURNAMENT_ADJ : TournamentLevel → ℚ
  | .ATP => 0
  | .WTA => 0
  | .CHALLENGER => -5/100
  | .GRAND_SLAM => 5/100

def SURFACE_ADJ : Surface → ℚ
  | .HARD => 0
  | .CLAY => -2/100
  | .GRASS => 3/100

def GAP_SMALL : Int := 50
def GAP_MEDIUM : Int := 100
def GAP_MAX : Int := 150

def GAP_ADJ_SMALL : ℚ := -2/100   -- gap < 50
def GAP_ADJ_MEDIUM : ℚ := 3/100   -- 50 <= gap <= 100
def GAP_ADJ_LARGE : ℚ := 8/100    -- gap > 100

def MIN_FAVORITE_PCT : ℚ := 70/100
def MAX_FAVORITE_PCT : ℚ := 92/100
def MIN_VOLUME : ℚ := 100

/-- engine.py `calculate_factor`: base + tournament + surface + gap-tier
adjustments, rounded to 2 decimals. -/
def calculate_factor (tournament : TournamentLevel) (surface : Surface)
    (ranking_gap : Int) : ℚ :=
  let factor := BASE_FACTOR + TOURNAMENT_ADJ tournament + SURFACE_ADJ surface
  let factor :=
    if ranking_gap < GAP_SMALL then factor + GAP_ADJ_SMALL
    else if ranking_gap ≤ GAP_MEDIUM then factor + GAP_ADJ_MEDIUM
    else factor + GAP_ADJ_LARGE
  roundTo 2 factor

/-- engine.py `_compute_gap`: absolute ranking difference, `none` when either
ranking is unknown. -/
def compute_gap (m : MatchData) : Option Int :=
  match m.playerFav.ranking, m.playerDog.ranking with
  | some r1, some r2 => some |r1 - r2|
  | _, _ => none

/-- engine.py `analyze_match`: filters (SKIP) then target computation and
BUY/WAIT signal. -/
def analyze_match (m : MatchData) : AnalysisResult :=
  if m.tournamentLevel = .GRAND_SLAM then
    { mtch := m, signal := .SKIP, targetPrice := none, factor := none,
      rankingGap := none, skipReason := some "Grand Slam — not traded" }
  else if m.favProbability < MIN_FAVORITE_PCT then
    { mtch := m, signal := .SKIP, targetPrice := none, factor := none,
      rankingGap := none, skipReason := some "Favorite below minimum" }
  else if MAX_FAVORITE_PCT < m.favProbability then
    { mtch := m, signal := .SKIP, targetPrice := none, factor := none,
      rankingGap := none, skipReason := some "Favorite above maximum" }
  else
    let ranking_gap := compute_gap m
    -- source: `if ranking_gap is not None and ranking_gap > GAP_MAX`
    if (ranking_gap.elim false fun g => decide (GAP_MAX < g)) = true then
      { mtch := m, signal := .SKIP, targetPrice := none, factor := none,
        rankingGap := ranking_gap, skipReason := some "Ranking gap above maximum" }
    else if m.volume < MIN_VOLUME then
      { mtch := m, signal := .SKIP, targetPrice := none, factor := none,
        rankingGap := ranking_gap, skipReason := some "Volume below minimum" }
    else
      -- source: `gap_for_calc = ranking_gap if ranking_gap is not None else 0`
      let gap_for_calc := ranking_gap.getD 0
      let factor := calculate_factor m.tournamentLevel m.surface gap_for_calc
      let target := roundTo 4 (m.favProbability * factor)
      let kalshiDecimal := m.kalshiPrice / 100
      let edge := target - kalshiDecimal
      { mtch := m,
        signal := if kalshiDecimal ≤ target then .BUY else .WAIT,
        targetPrice := some target, factor := some factor,
        rankingGap := ranking_gap, edge := some edge }

/-- Sort key used by engine.py `analyze_all`:
`order = {Signal.BUY: 0, Signal.WAIT: 1, Signal.SKIP: 2}`. -/
def signalKey : Signal → ℕ
  | .BUY => 0
  | .WAIT => 1
  | .SKIP => 2

/-- One step of a stable insertion sort on the signal key.  Python's
`list.sort(key=...)` is a stable ascending sort; a stable insertion sort
produces the identical list, since the key is a total order. -/
def sortInsert (x : AnalysisResult) : List AnalysisResult → List AnalysisResult
  | [] => [x]
  | y :: ys =>
    if signalKey x.signal ≤ signalKey y.signal then x :: y :: ys
    else y :: sortInsert x ys

def stableSortBySignal : List AnalysisResult → List AnalysisResult
  | [] => []
  | x :: xs => sortInsert x (stableSortBySignal xs)

/-- engine.py `analyze_all`: analyze each match, then stable-sort by
signal order BUY < WAIT < SKIP. -/
def analyze_all (ms : List MatchData) : List AnalysisResult :=
  stableSortBySignal (ms.map analyze_match)

/-! ## matchstat_client.py

The HTTP world (search endpoint, h2h endpoint) is abstracted into an
environment record: `searchPlayerId name` is the combined result of
`_search_player_id` (network fetch, parse, cache; `none` covers the missing
key, the request error and the failed-parse outcomes alike), and `h2hWinPct`
is the result of `_get_h2h_win_pct` — an optional win fraction for the
favourite together with the total number of head-to-head matches. -/

structure MatchstatEnv where
  apiKeyConfigured : Bool
  searchPlayerId : String → Option Int
  h2hWinPct : Int → Int → Bool → Option ℚ × Int

/-- matchstat_client.py `get_player_win_probability`: favourite's historical
H2H win fraction, or `none` when the API key is missing, either player cannot
be resolved, there is no H2H data, or the sample is below `minH2H`
(`MATCHSTAT_MIN_H2H_MATCHES`). -/
def get_player_win_probability (minH2H : Int) (env : MatchstatEnv)
    (player_fav player_dog : String)
    (tournament_level : Option TournamentLevel := none) : Option ℚ :=
  if ¬ env.apiKeyConfigured then none
  else
    match env.searchPlayerId player_fav, env.searchPlayerId player_dog with
    | some id_fav, some id_dog =>
      let is_wta := tournament_level = some .WTA
      match env.h2hWinPct id_fav id_dog is_wta with
      | (none, _) => none
      | (some win_pct, total) =>
        if total < minH2H then none   -- pocos datos → no confirmamos ni rechazamos
        else some win_pct
    | _, _ => none

/-- matchstat_client.py `confirms_signal`: true iff a win probability was
returned and it is at least `minWinPct` (`MATCHSTAT_MIN_WIN_PCT`). -/
def confirms_signal (minWinPct : ℚ) : Option ℚ → Bool
  | none => false
  | some w => decide (minWinPct ≤ w)

/-! ## kalshi_orders.py -/

/-- The three outcomes of the POST in `place_limit_order`'s non-dry-run
branch: a JSON body on success, an `httpx.HTTPStatusError`, or any other
exception. -/
inductive NetOutcome
  | success (body : String)
  | httpError (text : String)
  | exception (msg : String)
  deriving DecidableEq, Repr

/-- The result dict of `place_limit_order`; each branch of the source builds
a different set of keys, modelled with optional fields. -/
structure PlaceResult where
  dryRun : Bool
  status : String
  ticker : Option String := none
  yesPrice : Option Int := none
  count : Option Int := none
  order : Option String := none
  error : Option String := none
  deriving DecidableEq, Repr

/-- kalshi_orders.py `place_limit_order`.  The second component records
whether the HTTP branch was reached (an outbound network call attempted). -/
def place_limit_order (maxContractsPerOrder : Int) (net : NetOutcome)
    (ticker : String) (yes_price count0 : Int) (dry_run : Bool) :
    PlaceResult × Bool :=
  let count := min count0 maxContractsPerOrder
  if dry_run then
    ({ dryRun := true, ticker := some ticker, yesPrice := some yes_price,
       count := some count, status := "simulated" }, false)
  else
    match net with
    | .success body =>
      ({ dryRun := false, status := "placed", order := some body }, true)
    | .httpError text =>
      ({ dryRun := false, status := "failed", ticker := some ticker,
         error := some text }, true)
    | .exception msg =>
      ({ dryRun := false, status := "error", ticker := some ticker,
         error := some msg }, true)

/-! ## automation.py

The SQLite `placed_orders` table is modelled as a list of records in insert
order; `already_ordered` is the existence query and `record_order` the
insert. -/

structure OrderRecord where
  eventTicker : String
  ticker : String
  playerFav : String
  playerDog : String
  tournament : String
  targetPrice : Int
  contracts : Int
  kalshiPrice : ℚ
  matchstatWinPct : Option ℚ
  dryRun : Bool
  status : String
  orderResponse : String
  deriving DecidableEq, Repr

/-- automation.py `already_ordered`: true if any record (any status) exists
for the event. -/
def already_ordered (db : List OrderRecord) (event_ticker : String) : Bool :=
  db.any fun r => r.eventTicker = event_ticker

/-- automation.py `record_order`: append-only insert. -/
def record_order (db : List OrderRecord) (r : OrderRecord) : List OrderRecord :=
  db ++ [r]

/-- One entry of the cycle summary's `details` list (the fields the claims
depend on). -/
structure Detail where
  playerFav : String
  playerDog : String
  eventTicker : String
  ticker : String
  action : String
  deriving DecidableEq, Repr

/-- The cycle summary built by `run_automation_cycle`. -/
structure Summary where
  dryRun : Bool
  marketsFetched : ℕ := 0
  buySignals : ℕ := 0
  alreadyOrdered : ℕ := 0
  matchstatChecked : ℕ := 0
  matchstatConfirmed : ℕ := 0
  matchstatRejected : ℕ := 0
  ordersPlaced : ℕ := 0
  ordersFailed : ℕ := 0
  skippedNoTicker : ℕ := 0
  details : List Detail := []
  error : Option String := none
  deriving DecidableEq, Repr

/-- Cycle-wide configuration: `DRY_RUN`, `CONTRACTS_PER_TRADE`,
`MAX_CONTRACTS_PER_ORDER`, and the abstracted network outcome used if order
submission were reached. -/
structure CycleConfig where
  dryRun : Bool
  contractsPerTrade : Int
  maxContractsPerOrder : Int
  net : NetOutcome

def typeErrorMsg : String :=
  "TypeError: get_player_win_probability() missing 1 required positional argument"

/-- The body of the `for result in buy_signals` loop of
`run_automation_cycle` (automation.py lines 176-258), for one BUY result.

`Except.error s` models a Python exception escaping the loop body: the only
handler in `run_automation_cycle` is the `try`/`except` wrapping the whole
cycle, which stores the message in `summary["error"]` and ends the cycle.

Note the confirmation step: automation.py line 208 calls
`get_player_win_probability(m.player_fav.name)` with one positional
argument, while the function signature (matchstat_client.py line 220)
requires `player_dog` as well — so the call raises `TypeError` before the
oracle body runs.  The statements of the source that follow it
(`confirms_signal`, the rejected record, order placement, the placed/failed
record) are unreachable from this loop; the step is therefore modelled as
the raise itself, after the `summary["matchstat_checked"] += 1` update that
precedes the call. -/
def processSignal (db : List OrderRecord) (s : Summary)
    (r : AnalysisResult) : Except Summary (List OrderRecord × Summary) :=
  let m := r.mtch
  let event_ticker := m.kalshiEventTicker.getD ""   -- `or ""`
  let ticker := m.kalshiTicker.getD ""
  match r.targetPrice with
  | none =>
    -- `int(round(result.target_price * 100))` would raise on None;
    -- unreachable, since every BUY result carries a target price.
    .error { s with error := some "TypeError: NoneType" }
  | some tp =>
    let target_cents := pyRound (tp * 100)
    let detail : Detail :=
      { playerFav := m.playerFav.name, playerDog := m.playerDog.name,
        eventTicker := event_ticker, ticker := ticker, action := "" }
    if ticker = "" ∨ event_ticker = "" then
      .ok (db, { s with
        skippedNoTicker := s.skippedNoTicker + 1
        details := s.details ++ [{ detail with action := "skipped_no_ticker" }] })
    else if already_ordered db event_ticker then
      .ok (db, { s with
        alreadyOrdered := s.alreadyOrdered + 1
        details := s.details ++ [{ detail with action := "already_ordered" }] })
    else
      let _ := target_cents
      let s1 := { s with matchstatChecked := s.matchstatChecked + 1 }
      .error { s1 with error := some typeErrorMsg }

/-- The loop over BUY signals; an escaping exception ends it, keeping the
ledger state and the summary as mutated so far. -/
def processSignals : List AnalysisResult → List OrderRecord → Summary →
    List OrderRecord × Summary
  | [], db, s => (db, s)
  | r :: rest, db, s =>
    match processSignal db s r with
    | .ok (db1, s1) => processSignals rest db1 s1
    | .error s1 => (db, s1)

/-- automation.py `run_automation_cycle`, with market fetching abstracted
into the input list `ms` (the snapshots the Kalshi client returned) and the
SQLite ledger into `db`.  Returns the ledger after the cycle and the cycle
summary. -/
def run_automation_cycle (cfg : CycleConfig) (db : List OrderRecord)
    (ms : List MatchData) : List OrderRecord × Summary :=
  let results := analyze_all ms
  let buy_signals := results.filter fun r => r.signal = .BUY
  let s0 : Summary :=
    { dryRun := cfg.dryRun, marketsFetched := ms.length,
      buySignals := buy_signals.length }
  processSignals buy_signals db s0

/-- The detail entry `run_automation_cycle` appends for a deduplicated BUY
signal (base fields plus `action = "already_ordered"`). -/
def mkAlreadyDetail (r : AnalysisResult) : Detail :=
  { playerFav := r.mtch.playerFav.name, playerDog := r.mtch.playerDog.name,
    eventTicker := r.mtch.kalshiEventTicker.getD "",
    ticker := r.mtch.kalshiTicker.getD "", action := "already_ordered" }

/-! ## bet_tracker.py -/

/-- The four derived fields computed by `_calculate_outcome`. -/
structure Outcome where
  orderFilled : Bool
  fillPrice : Option Int
  edge : Int
  pnl : ℚ
  deriving DecidableEq, Repr

/-- bet_tracker.py `_calculate_outcome`.  In the source `order_filled` is
the int `1`/`0` and the pnl guard is `if order_filled and contracts:`
(contracts truthy = nonzero); `fill_price` equals `target_price` whenever
the pnl branch runs. -/
def calculate_outcome (target_price lowest_price_reached : Int)
    (match_outcome : String) (contracts : Int) : Outcome :=
  let order_filled : Bool := lowest_price_reached ≤ target_price
  let fill_price := if order_filled then some target_price else none
  let edge := lowest_price_reached - target_price
  let pnl : ℚ :=
    if order_filled && !(contracts == 0) then
      if match_outcome = "fav_won" then
        roundTo 2 ((((100 - target_price) * contracts : Int) : ℚ) / 100)
      else  -- fav_lost
        roundTo 2 (((-(target_price * contracts) : Int) : ℚ) / 100)
    else 0
  { orderFilled := order_filled, fillPrice := fill_price,
    edge := edge, pnl := pnl }

/-- A row of the `tracked_bets` table. -/
structure TrackedBet where
  id : ℕ
  eventTicker : Option String := none
  playerFav : String
  playerDog : String
  tournament : String
  tournamentLevel : String
  surface : String
  favProbability : ℚ
  kalshiPrice : Int
  targetPrice : Int
  contracts : Option Int := none
  lowestPriceReached : Option Int := none
  matchOutcome : Option String := none
  orderFilled : Option Bool := none
  fillPrice : Option Int := none
  edge : Option Int := none
  pnl : Option ℚ := none
  status : String
  deriving DecidableEq, Repr

/-- bet_tracker.py `get_bet_by_id` (`SELECT * FROM tracked_bets WHERE id = ?`;
`id` is the primary key, so at most one row matches). -/
def get_bet_by_id (db : List TrackedBet) (bet_id : ℕ) : Option TrackedBet :=
  db.find? fun b => b.id == bet_id

/-- bet_tracker.py `update_outcome`: look the bet up, derive the outcome
fields from `(target_price, lowest_price_reached, match_outcome, contracts)`,
and update the row in place, unconditionally setting `status = 'completed'`.
Returns the updated DB and the re-read row (`none` if the id is unknown). -/
def update_outcome (db : List TrackedBet) (bet_id : ℕ)
    (lowest_price_reached : Int) (match_outcome : String) (contracts : Int) :
    List TrackedBet × Option TrackedBet :=
  match get_bet_by_id db bet_id with
  | none => (db, none)
  | some bet =>
    let derived := calculate_outcome bet.targetPrice lowest_price_reached
      match_outcome contracts
    let db1 := db.map fun b =>
      if b.id = bet_id then
        { b with
          contracts := some contracts,
          lowestPriceReached := some lowest_price_reached,
          matchOutcome := some match_outcome,
          orderFilled := some derived.orderFilled,
          fillPrice := derived.fillPrice,
          edge := some derived.edge,
          pnl := some derived.pnl,
          status := "completed" }
      else b
    (db1, get_bet_by_id db1 bet_id)

/-! ## Concrete inputs used by witnesses and counterexamples -/

/-- A dry-run cycle configuration with the default contract caps. -/
def cfgDry : CycleConfig :=
  { dryRun := true, contractsPerTrade := 50, maxContractsPerOrder := 100,
    net := .exception "unreachable" }

/-- Standard-tour hard-court match, favourite probability 0.75, both rankings
unknown, price 50¢, ample volume — the scenario of the spec's factor
example. -/
def matchC4 : MatchData :=
  { playerFav := { name := "Fav" }, playerDog := { name := "Dog" },
    favProbability := 3/4, kalshiPrice := 50, tournamentName := "Open",
    tournamentLevel := .ATP, surface := .HARD, volume := 150,
    kalshiTicker := some "TK4", kalshiEventTicker := some "EV4" }

/-- BUY match at 10¢ — edge 0.512 after the engine's pricing. -/
def matchC8a : MatchData :=
  { playerFav := { name := "A8" }, playerDog := { name := "B8" },
    favProbability := 9/10, kalshiPrice := 10, tournamentName := "Open",
    tournamentLevel := .ATP, surface := .HARD, volume := 150,
    kalshiTicker := some "TK8A", kalshiEventTicker := some "EV8A" }

/-- BUY match at 60¢ — edge 0.012 after the engine's pricing. -/
def matchC8b : MatchData :=
  { playerFav := { name := "C8" }, playerDog := { name := "D8" },
    favProbability := 9/10, kalshiPrice := 60, tournamentName := "Open",
    tournamentLevel := .ATP, surface := .HARD, volume := 150,
    kalshiTicker := some "TK8B", kalshiEventTicker := some "EV8B" }

/-- BUY match used by the decision-loop inputs: probability 0.75 → target
0.51, market at 40¢. -/
def matchC1 : MatchData :=
  { playerFav := { name := "Fav1" }, playerDog := { name := "Dog1" },
    favProbability := 3/4, kalshiPrice := 40, tournamentName := "Open",
    tournamentLevel := .ATP, surface := .HARD, volume := 150,
    kalshiTicker := some "TK1", kalshiEventTicker := some "EV1" }

/-- An existing ledger record for event `EV1` (a rejection, i.e. a
non-placed status). -/
def recC1 : OrderRecord :=
  { eventTicker := "EV1", ticker := "TK1", playerFav := "Fav1",
    playerDog := "Dog1", tournament := "Open", targetPrice := 51,
    contracts := 0, kalshiPrice := 40, matchstatWinPct := none,
    dryRun := true, status := "rejected_by_matchstat", orderResponse := "" }

/-- BUY match for the fail-closed-confirmation scenario. -/
def matchC2 : MatchData :=
  { playerFav := { name := "Fav2" }, playerDog := { name := "Dog2" },
    favProbability := 3/4, kalshiPrice := 40, tournamentName := "Open",
    tournamentLevel := .ATP, surface := .HARD, volume := 150,
    kalshiTicker := some "TK2", kalshiEventTicker := some "EV2" }

/-- First of two BUY matches for the per-match-failure scenario. -/
def matchC3a : MatchData :=
  { playerFav := { name := "Fav3a" }, playerDog := { name := "Dog3a" },
    favProbability := 3/4, kalshiPrice := 40, tournamentName := "Open",
    tournamentLevel := .ATP, surface := .HARD, volume := 150,
    kalshiTicker := some "TK3A", kalshiEventTicker := some "EV3A" }

/-- Second of two BUY matches for the per-match-failure scenario. -/
def matchC3b : MatchData :=
  { playerFav := { name := "Fav3b" }, playerDog := { name := "Dog3b" },
    favProbability := 3/4, kalshiPrice := 40, tournamentName := "Open",
    tournamentLevel := .ATP, surface := .HARD, volume := 150,
    kalshiTicker := some "TK3B", kalshiEventTicker := some "EV3B" }

/-- Match with favourite probability exactly at the 0.70 floor. -/
def matchC9 : MatchData :=
  { playerFav := { name := "Fav9" }, playerDog := { name := "Dog9" },
    favProbability := 7/10, kalshiPrice := 40, tournamentName := "Open",
    tournamentLevel := .ATP, surface := .HARD, volume := 150,
    kalshiTicker := some "TK9", kalshiEventTicker := some "EV9" }

/-- Match used for the BUY/WAIT/edge witness. -/
def matchC6 : MatchData :=
  { playerFav := { name := "Fav6" }, playerDog := { name := "Dog6" },
    favProbability := 3/4, kalshiPrice := 40, tournamentName := "Open",
    tournamentLevel := .ATP, surface := .HARD, volume := 150,
    kalshiTicker := some "TK6", kalshiEventTicker := some "EV6" }

/-- A Matchstat environment with no API key configured (and providers that
resolve nothing — unreachable behind the missing key). -/
def envNoKey : MatchstatEnv :=
  { apiKeyConfigured := false, searchPlayerId := fun _ => none,
    h2hWinPct := fun _ _ _ => (none, 0) }

/-- A Matchstat environment whose key is set but whose search resolves no
player (the state of the shipped parser, whose `_parse_player_id` always
returns None). -/
def envNoPlayer : MatchstatEnv :=
  { apiKeyConfigured := true, searchPlayerId := fun _ => none,
    h2hWinPct := fun _ _ _ => (none, 0) }

/-- A Matchstat environment that resolves players but has a head-to-head
sample of only 2 matches, below the default minimum of 3. -/
def envSmallSample : MatchstatEnv :=
  { apiKeyConfigured := true, searchPlayerId := fun _ => some 1,
    h2hWinPct := fun _ _ _ => (some 1, 2) }

/-- An already-completed tracked bet (target 58¢, outcome data from an
earlier update). -/
def betC10 : TrackedBet :=
  { id := 1, playerFav := "Fav10", playerDog := "Dog10", tournament := "Open",
    tournamentLevel := "ATP", surface := "Hard", favProbability := 3/4,
    kalshiPrice := 55, targetPrice := 58, contracts := some 50,
    lowestPriceReached := some 55, matchOutcome := some "fav_won",
    orderFilled := some true, fillPrice := some 58, edge := some (-3),
    pnl := some 21, status := "completed" }

/-! ## Helper lemmas -/

theorem sortInsert_cons_of_le (x : AnalysisResult) (L : List AnalysisResult)
    (h : ∀ y ∈ L, signalKey x.signal ≤ signalKey y.signal) :
    sortInsert x L = x :: L := by
  cases L with
  | nil => rfl
  | cons y ys =>
    unfold sortInsert
    rw [if_pos (h y (List.mem_cons_self y ys))]

theorem sortInsert_append_of_lt (x : AnalysisResult) (P R : List AnalysisResult)
    (h : ∀ y ∈ P, signalKey y.signal < signalKey x.signal) :
    sortInsert x (P ++ R) = P ++ sortInsert x R := by
  induction P with
  | nil => rfl
  | cons y ys ih =>
    have hy : ¬ signalKey x.signal ≤ signalKey y.signal :=
      not_le.mpr (h y (List.mem_cons_self _ _))
    simp only [List.cons_append, sortInsert, if_neg hy, List.append_eq]
    rw [ih fun z hz => h z (List.mem_cons_of_mem _ hz)]

theorem mem_filter_signal {l : List AnalysisResult} {sg : Signal} {y : AnalysisResult}
    (hy : y ∈ l.filter fun r => r.signal = sg) : y.signal = sg := by
  have := (List.mem_filter.mp hy).2
  simpa using this

theorem atp_ne_gs : TournamentLevel.ATP ≠ TournamentLevel.GRAND_SLAM := by decide

/-- The stable signal sort is: all BUY results (in input order), then all
WAIT results, then all SKIP results. -/
theorem stableSort_filter (l : List AnalysisResult) :
    stableSortBySignal l =
      (l.filter fun r => r.signal = .BUY) ++ (l.filter fun r => r.signal = .WAIT) ++
      (l.filter fun r => r.signal = .SKIP) := by
  induction l with
  | nil => rfl
  | cons x xs ih =>
    unfold stableSortBySignal
    rw [ih]
    cases hx : x.signal with
    | BUY =>
      have hkey : signalKey x.signal = 0 := by rw [hx]; rfl
      rw [sortInsert_cons_of_le x _ (by intro y _; rw [hkey]; exact Nat.zero_le _)]
      simp [List.filter_cons, hx]
    | WAIT =>
      have hkey : signalKey x.signal = 1 := by rw [hx]; rfl
      rw [List.append_assoc,
        sortInsert_append_of_lt x _ _ (by
          intro y hy
          rw [mem_filter_signal hy, hkey]
          decide),
        sortInsert_cons_of_le x _ (by
          intro y hy
          rcases List.mem_append.mp hy with hw | hs
          · rw [mem_filter_signal hw, hkey]; decide
          · rw [mem_filter_signal hs, hkey]; decide)]
      simp [List.filter_cons, hx]
    | SKIP =>
      have hkey : signalKey x.signal = 2 := by rw [hx]; rfl
      rw [List.append_assoc,
        sortInsert_append_of_lt x _ _ (by
          intro y hy
          rw [mem_filter_signal hy, hkey]
          decide),
        sortInsert_append_of_lt x _ _ (by
          intro y hy
          rw [mem_filter_signal hy, hkey]
          decide),
        sortInsert_cons_of_le x _ (by
          intro y hy
          rw [mem_filter_signal hy, hkey]
          decide)]
      simp [List.filter_cons, hx]

/-! ## Claims -/

/-- Claim C5: for every call to order execution with the dry-run flag set,
no network submission is attempted, and the result has status "simulated" —
never "placed" — with the requested contract count clamped to the
configured per-order maximum. -/
theorem C5_dry_run_simulated (maxC : Int) (net : NetOutcome) (ticker : String)
    (yes_price count : Int) :
    (place_limit_order maxC net ticker yes_price count true).2 = false ∧
    (place_limit_order maxC net ticker yes_price count true).1.status = "simulated" ∧
    (place_limit_order maxC net ticker yes_price count true).1.status ≠ "placed" ∧
    (place_limit_order maxC net ticker yes_price count true).1.count =
      some (min count maxC) :=
  ⟨rfl, rfl, fun h => absurd h (by show ¬ ("simulated" : String) = "placed"; decide), rfl⟩

/-- Claim C7: the outcome derivation is a pure function of (target, lowest
price reached, winner side, quantity): filled iff lowest ≤ target; fill
price = target when filled; edge = lowest − target; PnL 0 when unfilled,
(100 − fill)×qty/100 on a filled favourite win, −(fill×qty)/100 on a filled
favourite loss, rounded to 2 decimals; in particular target 58, lowest 55,
quantity 50, favourite won gives filled, fill 58, edge −3, PnL 21.00. -/
theorem C7_outcome_derivation (t l c : Int) (outcome : String) :
    (calculate_outcome t l outcome c).orderFilled = decide (l ≤ t) ∧
    (calculate_outcome t l outcome c).fillPrice = (if l ≤ t then some t else none) ∧
    (calculate_outcome t l outcome c).edge = l - t ∧
    (calculate_outcome t l outcome c).pnl =
      (if l ≤ t then
        if outcome = "fav_won" then roundTo 2 ((((100 - t) * c : Int) : ℚ) / 100)
        else roundTo 2 (((-(t * c) : Int) : ℚ) / 100)
       else 0) ∧
    calculate_outcome 58 55 "fav_won" 50 =
      { orderFilled := true, fillPrice := some 58, edge := -3, pnl := 21 } := by
  refine ⟨rfl, ?_, rfl, ?_,
    by norm_num [calculate_outcome, roundTo, pyRound, Outcome.mk.injEq]⟩
  · by_cases h : l ≤ t <;> simp [calculate_outcome, h]
  · by_cases h : l ≤ t
    · by_cases hc : c = 0
      · have h0 : roundTo 2 0 = 0 := by norm_num [roundTo, pyRound]
        by_cases ho : outcome = "fav_won" <;>
          simp [calculate_outcome, h, hc, ho, h0]
      · by_cases ho : outcome = "fav_won" <;>
          simp [calculate_outcome, h, hc, ho]
    · simp [calculate_outcome, h]

/-- Claim C4 counterexample: for favourite probability 0.75, standard tour,
hard court, both rankings unknown, the engine computes factor 0.68 and
target 0.51 — not the claimed factor 0.70 and target 0.525, because the
gap-treated-as-zero falls in the gap<50 tier, contributing −0.02. -/
theorem C4_counterexample :
    (analyze_match matchC4).factor = some (17/25 : ℚ) ∧
    (analyze_match matchC4).targetPrice = some (51/100 : ℚ) ∧
    (analyze_match matchC4).factor ≠ some (70/100 : ℚ) ∧
    (analyze_match matchC4).targetPrice ≠ some (525/1000 : ℚ) := by
  norm_num [analyze_match, matchC4, compute_gap, MIN_FAVORITE_PCT, MAX_FAVORITE_PCT,
    MIN_VOLUME, GAP_MAX, calculate_factor, BASE_FACTOR, TOURNAMENT_ADJ, SURFACE_ADJ,
    GAP_SMALL, GAP_MEDIUM, GAP_ADJ_SMALL, GAP_ADJ_MEDIUM, GAP_ADJ_LARGE, roundTo,
    pyRound, atp_ne_gs]

/-- Claim C4 (amended): for a match with favourite probability 0.75,
standard-tour level, hard surface and both rankings unknown (gap treated as
zero, which lies in the gap<50 tier with its −0.02 adjustment), the pricing
engine computes factor = 0.68 and target = 0.75 × 0.68 = 0.51, for any price
and any volume meeting the liquidity floor. -/
theorem C4_amended (price volume : ℚ) (hv : MIN_VOLUME ≤ volume) :
    (analyze_match { matchC4 with kalshiPrice := price, volume := volume }).factor =
      some (17/25 : ℚ) ∧
    (analyze_match { matchC4 with kalshiPrice := price, volume := volume }).targetPrice =
      some (51/100 : ℚ) := by
  have hnv : ¬ (volume < MIN_VOLUME) := not_lt.mpr hv
  norm_num [analyze_match, matchC4, compute_gap, MIN_FAVORITE_PCT, MAX_FAVORITE_PCT,
    GAP_MAX, calculate_factor, BASE_FACTOR, TOURNAMENT_ADJ, SURFACE_ADJ,
    GAP_SMALL, GAP_MEDIUM, GAP_ADJ_SMALL, GAP_ADJ_MEDIUM, GAP_ADJ_LARGE, roundTo,
    pyRound, atp_ne_gs, hnv]

/-- Claim C4 witness: the amended claim at price 50¢ and volume 150. -/
theorem C4_witness :
    MIN_VOLUME ≤ (150 : ℚ) ∧
    ((analyze_match { matchC4 with kalshiPrice := 50, volume := 150 }).factor =
        some (17/25 : ℚ) ∧
      (analyze_match { matchC4 with kalshiPrice := 50, volume := 150 }).targetPrice =
        some (51/100 : ℚ)) :=
  ⟨by norm_num [MIN_VOLUME], C4_amended 50 150 (by norm_num [MIN_VOLUME])⟩

/-- Claim C8 counterexample: two BUY snapshots where the first has the larger
edge: the batch entry point returns them in input order (0.512 before
0.012), so the BUY group is not ordered by smallest edge-to-fill first. -/
theorem C8_counterexample :
    (analyze_all [matchC8a, matchC8b]).map (fun r => (r.signal, r.edge)) =
      [(Signal.BUY, some (64/125 : ℚ)), (Signal.BUY, some (3/250 : ℚ))] ∧
    (3/250 : ℚ) < 64/125 := by
  norm_num [analyze_all, stableSortBySignal, sortInsert, signalKey, analyze_match,
    matchC8a, matchC8b, compute_gap, MIN_FAVORITE_PCT, MAX_FAVORITE_PCT, MIN_VOLUME,
    GAP_MAX, calculate_factor, BASE_FACTOR, TOURNAMENT_ADJ, SURFACE_ADJ,
    GAP_SMALL, GAP_MEDIUM, GAP_ADJ_SMALL, GAP_ADJ_MEDIUM, GAP_ADJ_LARGE, roundTo,
    pyRound, atp_ne_gs]

/-- Claim C8 (amended): the batch entry point evaluates each snapshot
independently and returns all BUY results before all WAIT results before all
SKIP results; within each signal group the original input order is preserved
(the sort key is the signal alone and the sort is stable) — there is no
ordering by edge within the BUY group. -/
theorem C8_amended (ms : List MatchData) :
    analyze_all ms =
      ((ms.map analyze_match).filter fun r => r.signal = .BUY) ++
      ((ms.map analyze_match).filter fun r => r.signal = .WAIT) ++
      ((ms.map analyze_match).filter fun r => r.signal = .SKIP) :=
  stableSort_filter (ms.map analyze_match)

/-- Claim C9: when the major, ranking-gap and volume filters do not trip,
the probability filters SKIP exactly the favourite probabilities strictly
below the 0.70 floor or strictly above the 0.92 ceiling — a probability
exactly at either boundary is not skipped and proceeds to pricing. -/
theorem C9_boundary_inclusive (m : MatchData)
    (hl : m.tournamentLevel ≠ .GRAND_SLAM)
    (hg : ((compute_gap m).elim false fun g => decide (GAP_MAX < g)) = false)
    (hv : MIN_VOLUME ≤ m.volume) :
    ((analyze_match m).signal = .SKIP ↔
      m.favProbability < MIN_FAVORITE_PCT ∨ MAX_FAVORITE_PCT < m.favProbability) := by
  have hnv : ¬ (m.volume < MIN_VOLUME) := not_lt.mpr hv
  have hg' : ¬ (((compute_gap m).elim false fun g => decide (GAP_MAX < g)) = true) := by
    simp [hg]
  simp only [analyze_match, if_neg hl, if_neg hg', if_neg hnv]
  by_cases h1 : m.favProbability < MIN_FAVORITE_PCT
  · simp [h1]
  · by_cases h2 : MAX_FAVORITE_PCT < m.favProbability
    · simp [h1, h2]
    · simp only [if_neg h1, if_neg h2]
      simp only [h1, h2, or_self, iff_false]
      split <;> simp

/-- Claim C9 witness: a match with probability exactly 0.70 at the floor is
not skipped. -/
theorem C9_witness :
    (matchC9.tournamentLevel ≠ .GRAND_SLAM ∧
      ((compute_gap matchC9).elim false fun g => decide (GAP_MAX < g)) = false ∧
      MIN_VOLUME ≤ matchC9.volume) ∧
    ((analyze_match matchC9).signal = .SKIP ↔
      matchC9.favProbability < MIN_FAVORITE_PCT ∨
        MAX_FAVORITE_PCT < matchC9.favProbability) :=
  ⟨⟨by decide, by decide, by norm_num [matchC9, MIN_VOLUME]⟩,
    C9_boundary_inclusive matchC9 (by decide) (by decide)
      (by norm_num [matchC9, MIN_VOLUME])⟩

/-- Claim C6: for every match that passes all filters (it received a target
price), the signal is BUY exactly when the market price as a fraction
(cents / 100) is at or below the target, WAIT otherwise, and the edge is
the target minus the market price as a fraction. -/
theorem C6_signal_and_edge (m : MatchData) (t : ℚ)
    (ht : (analyze_match m).targetPrice = some t) :
    ((analyze_match m).signal = Signal.BUY ↔ m.kalshiPrice / 100 ≤ t) ∧
    ((analyze_match m).signal = Signal.WAIT ↔ ¬ m.kalshiPrice / 100 ≤ t) ∧
    (analyze_match m).edge = some (t - m.kalshiPrice / 100) := by
  simp only [analyze_match] at ht ⊢
  split_ifs at ht with h1 h2 h3 h4 h5 hb
  · simp only [Option.some.injEq] at ht
    subst ht
    simp [hb, if_neg h1, if_neg h2, if_neg h3, if_neg h4, if_neg h5]
  · simp only [Option.some.injEq] at ht
    subst ht
    simp [hb, if_neg h1, if_neg h2, if_neg h3, if_neg h4, if_neg h5]

/-- Claim C6 witness: market 40¢ against target 0.51 — BUY with edge 0.11. -/
theorem C6_witness :
    (analyze_match matchC6).targetPrice = some (51/100 : ℚ) ∧
    (((analyze_match matchC6).signal = Signal.BUY ↔
        matchC6.kalshiPrice / 100 ≤ (51/100 : ℚ)) ∧
      ((analyze_match matchC6).signal = Signal.WAIT ↔
        ¬ matchC6.kalshiPrice / 100 ≤ (51/100 : ℚ)) ∧
      (analyze_match matchC6).edge = some ((51/100 : ℚ) - matchC6.kalshiPrice / 100)) :=
  ⟨by
      norm_num [analyze_match, matchC6, compute_gap, MIN_FAVORITE_PCT, MAX_FAVORITE_PCT,
        MIN_VOLUME, GAP_MAX, calculate_factor, BASE_FACTOR, TOURNAMENT_ADJ, SURFACE_ADJ,
        GAP_SMALL, GAP_MEDIUM, GAP_ADJ_SMALL, GAP_ADJ_MEDIUM, GAP_ADJ_LARGE, roundTo,
        pyRound, atp_ne_gs],
    C6_signal_and_edge matchC6 (51/100) (by
      norm_num [analyze_match, matchC6, compute_gap, MIN_FAVORITE_PCT, MAX_FAVORITE_PCT,
        MIN_VOLUME, GAP_MAX, calculate_factor, BASE_FACTOR, TOURNAMENT_ADJ, SURFACE_ADJ,
        GAP_SMALL, GAP_MEDIUM, GAP_ADJ_SMALL, GAP_ADJ_MEDIUM, GAP_ADJ_LARGE, roundTo,
        pyRound, atp_ne_gs])⟩

theorem mem_analyze_all {r : AnalysisResult} {ms : List MatchData}
    (h : r ∈ analyze_all ms) : ∃ m, r = analyze_match m := by
  rw [analyze_all, stableSort_filter] at h
  have hmap : r ∈ ms.map analyze_match := by
    rcases List.mem_append.mp h with h12 | h3
    · rcases List.mem_append.mp h12 with h1 | h2
      · exact (List.mem_filter.mp h1).1
      · exact (List.mem_filter.mp h2).1
    · exact (List.mem_filter.mp h3).1
  obtain ⟨m, _, hm⟩ := List.mem_map.mp hmap
  exact ⟨m, hm.symm⟩

theorem analyze_match_buy_target (m : MatchData)
    (h : (analyze_match m).signal = .BUY) : (analyze_match m).targetPrice ≠ none := by
  simp only [analyze_match] at h ⊢
  split_ifs at h ⊢
  all_goals simp_all

theorem analyze_match_mtch (m : MatchData) : (analyze_match m).mtch = m := by
  simp only [analyze_match]
  split_ifs
  all_goals rfl

/-- Processing a run of BUY signals that all carry the deduplicated event
`e`: the loop leaves the ledger untouched, queries nothing, and reports
every signal as already ordered. -/
theorem processSignals_dedup (e : String) (he : e ≠ "") (buys : List AnalysisResult) :
    ∀ (db : List OrderRecord) (s : Summary),
    (∀ r ∈ buys, r.targetPrice ≠ none ∧ r.mtch.kalshiTicker.getD "" ≠ "" ∧
      r.mtch.kalshiEventTicker.getD "" = e) →
    already_ordered db e = true →
    processSignals buys db s =
      (db, { s with
        alreadyOrdered := s.alreadyOrdered + buys.length
        details := s.details ++ buys.map mkAlreadyDetail }) := by
  induction buys with
  | nil => intro db s _ _; simp [processSignals]
  | cons r rest ih =>
    intro db s h hdb
    obtain ⟨htp, hne, hev⟩ := h r (List.mem_cons_self _ _)
    obtain ⟨tp, htp'⟩ := Option.ne_none_iff_exists'.mp htp
    have hcond : ¬ (r.mtch.kalshiTicker.getD "" = "" ∨
        r.mtch.kalshiEventTicker.getD "" = "") := by
      rintro (hc | hc)
      · exact hne hc
      · exact he (hev.symm.trans hc)
    have hao : already_ordered db (r.mtch.kalshiEventTicker.getD "") = true := by
      rw [hev]; exact hdb
    have hstep : processSignal db s r = .ok (db, { s with
        alreadyOrdered := s.alreadyOrdered + 1
        details := s.details ++ [mkAlreadyDetail r] }) := by
      simp only [processSignal, htp', if_neg hcond, hao, if_pos, mkAlreadyDetail]
    simp only [processSignals, hstep]
    rw [ih db _ (fun x hx => h x (List.mem_cons_of_mem _ hx)) hdb]
    simp only [Prod.mk.injEq, Summary.mk.injEq, List.map_cons, List.length_cons,
      List.append_assoc, List.singleton_append, true_and, and_true]
    omega

/-- Claim C1: once any ledger record exists for an event (whatever its
status), a later cycle whose BUY signals are all for that event performs no
confirmation query, no order submission and no insert: the ledger is
returned unchanged and each signal is reported with the already-ordered
action, with the matchstat/order counters untouched. -/
theorem C1_event_dedup (cfg : CycleConfig) (db : List OrderRecord)
    (ms : List MatchData) (e : String) (he : e ≠ "")
    (hdb : already_ordered db e = true)
    (hb : ∀ r ∈ analyze_all ms, r.signal = .BUY →
      r.mtch.kalshiTicker.getD "" ≠ "" ∧ r.mtch.kalshiEventTicker.getD "" = e) :
    run_automation_cycle cfg db ms =
      (db, { dryRun := cfg.dryRun, marketsFetched := ms.length,
             buySignals := ((analyze_all ms).filter fun r => r.signal = .BUY).length,
             alreadyOrdered := ((analyze_all ms).filter fun r => r.signal = .BUY).length,
             details :=
               ((analyze_all ms).filter fun r => r.signal = .BUY).map mkAlreadyDetail }) := by
  unfold run_automation_cycle
  rw [processSignals_dedup e he _ db _ ?_ hdb]
  · simp
  · intro r hr
    have hmem : r ∈ analyze_all ms := (List.mem_filter.mp hr).1
    have hsig : r.signal = .BUY := mem_filter_signal hr
    obtain ⟨m, hm⟩ := mem_analyze_all hmem
    refine ⟨?_, hb r hmem hsig⟩
    rw [hm]
    exact analyze_match_buy_target m (hm ▸ hsig)

/-- Claim C1 witness: a ledger holding a rejection record for event `EV1`
and a cycle whose single BUY signal is for `EV1`: the cycle reports it as
already ordered and changes nothing. -/
theorem C1_witness :
    (("EV1" : String) ≠ "" ∧ already_ordered [recC1] "EV1" = true ∧
      (∀ r ∈ analyze_all [matchC1], r.signal = .BUY →
        r.mtch.kalshiTicker.getD "" ≠ "" ∧ r.mtch.kalshiEventTicker.getD "" = "EV1")) ∧
    run_automation_cycle cfgDry [recC1] [matchC1] =
      ([recC1],
        { dryRun := cfgDry.dryRun
          marketsFetched := [matchC1].length
          buySignals := ((analyze_all [matchC1]).filter fun r => r.signal = .BUY).length
          alreadyOrdered := ((analyze_all [matchC1]).filter fun r => r.signal = .BUY).length
          details :=
            ((analyze_all [matchC1]).filter fun r => r.signal = .BUY).map
              mkAlreadyDetail }) :=
  have h3 : ∀ r ∈ analyze_all [matchC1], r.signal = .BUY →
      r.mtch.kalshiTicker.getD "" ≠ "" ∧ r.mtch.kalshiEventTicker.getD "" = "EV1" := by
    intro r hr _
    have hr' : r = analyze_match matchC1 := by
      simpa [analyze_all, stableSortBySignal, sortInsert] using hr
    rw [hr', analyze_match_mtch]
    constructor
    · simp [matchC1]
    · simp [matchC1]
  ⟨⟨by decide, by decide, h3⟩,
    C1_event_dedup cfgDry [recC1] [matchC1] "EV1" (by decide) (by decide) h3⟩

/-- Claim C2 (code bug): the confirmation policy never confirms an unknown
(None) oracle result, and the oracle does return None when the API key is
missing, a player cannot be resolved, or the head-to-head sample is below
the minimum — but the cycle never writes the rejected record for such a BUY
signal: the confirmation call (automation.py line 208) omits the required
`player_dog` argument and raises TypeError, so the cycle errors out with
the ledger unchanged and no order submitted and no record inserted. -/
theorem C2_fail_closed_bug :
    (∀ minPct : ℚ, confirms_signal minPct none = false) ∧
    (∀ (minH2H : Int) (fav dog : String) (lvl : Option TournamentLevel),
      get_player_win_probability minH2H envNoKey fav dog lvl = none ∧
      get_player_win_probability minH2H envNoPlayer fav dog lvl = none) ∧
    (∀ (fav dog : String) (lvl : Option TournamentLevel),
      get_player_win_probability 3 envSmallSample fav dog lvl = none) ∧
    run_automation_cycle cfgDry [] [matchC2] =
      ([], { dryRun := true, marketsFetched := 1, buySignals := 1,
             matchstatChecked := 1, error := some typeErrorMsg }) := by
  refine ⟨fun _ => rfl, fun minH2H fav dog lvl => ⟨?_, ?_⟩, fun fav dog lvl => ?_, ?_⟩
  · simp [get_player_win_probability, envNoKey]
  · simp [get_player_win_probability, envNoPlayer]
  · simp [get_player_win_probability, envSmallSample]
  · norm_num [run_automation_cycle, analyze_all, stableSortBySignal, sortInsert,
      analyze_match, matchC2, compute_gap, MIN_FAVORITE_PCT, MAX_FAVORITE_PCT,
      MIN_VOLUME, GAP_MAX, calculate_factor, BASE_FACTOR, TOURNAMENT_ADJ, SURFACE_ADJ,
      GAP_SMALL, GAP_MEDIUM, GAP_ADJ_SMALL, GAP_ADJ_MEDIUM, GAP_ADJ_LARGE, roundTo,
      pyRound, atp_ne_gs, processSignals, processSignal, already_ordered, cfgDry]
    simp [cfgDry]

/-- Claim C3 (code bug): in a cycle with two BUY signals for distinct
events, the exception raised while processing the first (the mis-called
confirmation oracle) aborts the whole cycle: only one signal is ever
checked, the second is never processed, and the failing match is not
recorded anywhere — the details list stays empty and the ledger is
unchanged. -/
theorem C3_cycle_aborts :
    run_automation_cycle cfgDry [] [matchC3a, matchC3b] =
      ([], { dryRun := true, marketsFetched := 2, buySignals := 2,
             matchstatChecked := 1, details := [],
             error := some typeErrorMsg }) := by
  norm_num [run_automation_cycle, analyze_all, stableSortBySignal, sortInsert,
    signalKey, analyze_match, matchC3a, matchC3b, compute_gap, MIN_FAVORITE_PCT,
    MAX_FAVORITE_PCT, MIN_VOLUME, GAP_MAX, calculate_factor, BASE_FACTOR,
    TOURNAMENT_ADJ, SURFACE_ADJ, GAP_SMALL, GAP_MEDIUM, GAP_ADJ_SMALL,
    GAP_ADJ_MEDIUM, GAP_ADJ_LARGE, roundTo, pyRound, atp_ne_gs, processSignals,
    processSignal, already_ordered, cfgDry]
  simp [cfgDry]

theorem get_bet_map_update (db : List TrackedBet) (i : ℕ) (bet : TrackedBet)
    (f : TrackedBet → TrackedBet) (hf : ∀ b, (f b).id = b.id)
    (h : get_bet_by_id db i = some bet) :
    get_bet_by_id (db.map fun b => if b.id = i then f b else b) i = some (f bet) := by
  induction db with
  | nil => simp [get_bet_by_id] at h
  | cons b bs ih =>
    by_cases hb : b.id = i
    · rw [get_bet_by_id, List.find?_cons_of_pos _ (by simp [hb])] at h
      rw [List.map_cons, if_pos hb, get_bet_by_id,
        List.find?_cons_of_pos _ (by simp [hf, hb])]
      rw [Option.some_inj] at h
      rw [h]
    · rw [get_bet_by_id, List.find?_cons_of_neg _ (by simp [hb])] at h
      rw [List.map_cons, if_neg hb, get_bet_by_id,
        List.find?_cons_of_neg _ (by simp [hb])]
      exact ih h

/-- Claim C10: for every existing tracked-bet id, the outcome update
unconditionally sets the record's status to completed and overwrites the
outcome and derived fields with values recomputed from its arguments,
whatever the record's prior status — a second update on a completed record
succeeds and replaces the earlier outcome data. -/
theorem C10_update_overwrites (db : List TrackedBet) (bet_id : ℕ) (bet : TrackedBet)
    (h : get_bet_by_id db bet_id = some bet) (l : Int) (outcome : String) (c : Int) :
    (update_outcome db bet_id l outcome c).2 = some
      { bet with
        contracts := some c
        lowestPriceReached := some l
        matchOutcome := some outcome
        orderFilled := some (calculate_outcome bet.targetPrice l outcome c).orderFilled
        fillPrice := (calculate_outcome bet.targetPrice l outcome c).fillPrice
        edge := some (calculate_outcome bet.targetPrice l outcome c).edge
        pnl := some (calculate_outcome bet.targetPrice l outcome c).pnl
        status := "completed" } := by
  unfold update_outcome
  rw [h]
  exact get_bet_map_update db bet_id bet _ (fun b => rfl) h

/-- Claim C10 witness: a second update on the already-completed bet
`betC10` succeeds and replaces the earlier outcome (60¢ low, favourite
lost, 30 contracts — the order no longer fills). -/
theorem C10_witness :
    get_bet_by_id [betC10] 1 = some betC10 ∧
    (update_outcome [betC10] 1 60 "fav_lost" 30).2 = some
      { betC10 with
        contracts := some 30
        lowestPriceReached := some 60
        matchOutcome := some "fav_lost"
        orderFilled := some (calculate_outcome betC10.targetPrice 60 "fav_lost" 30).orderFilled
        fillPrice := (calculate_outcome betC10.targetPrice 60 "fav_lost" 30).fillPrice
        edge := some (calculate_outcome betC10.targetPrice 60 "fav_lost" 30).edge
        pnl := some (calculate_outcome betC10.targetPrice 60 "fav_lost" 30).pnl
        status := "completed" } :=
  ⟨rfl, C10_update_overwrites [betC10] 1 betC10 rfl 60 "fav_lost" 30⟩

end Tennisbot
